import Mathlib

/-!
Verification of the shell-session manager in `src-tauri/src/terminal.rs`.

The Rust code is shallowly embedded: machine state (the session registry,
the set of spawned and killed child processes, the stdin write log) is an
explicit record, each `#[tauri::command]` becomes a state-transition
function, and the per-session output pump becomes a pure function from the
sequence of read results on the child's standard output to the list of
emitted events.  External library behaviour that the code relies on
(`std::io::BufRead::lines`, `std::process::Command::spawn` with piped
stdio, `DashMap` insert/remove) is modelled from its documented semantics.
-/

/-- Session identifiers are caller-supplied opaque strings
(`type SessionId = String` in the source). -/
abbrev SessionId := String

/-- The three events emitted to the frontend, mirroring the `ShellOutput`,
`ShellError` and `ShellExit` payload structs in the source. -/
inductive ShellEvent
  | shellOutput (session_id : SessionId) (output : String)
  | shellError (session_id : SessionId) (error : String)
  | shellExit (session_id : SessionId) (exit_status : Option Int)
deriving DecidableEq, Repr

/-- Close out one accumulated line (held in reverse order) the way
`std::io::Lines::next` does after it has seen the `\n` terminator: the
terminator itself is gone, and one trailing `\r` (CRLF) is stripped. -/
def finishLine (acc : List Char) : String :=
  match acc with
  | [] => String.mk []
  | c :: rest => if c = '\r' then String.mk rest.reverse else String.mk ((c :: rest).reverse)

/-- Worker for `linesOf`: walks the remaining bytes with the current line
accumulated in reverse.  At end of stream a nonempty accumulator is
yielded as a final line (with no `\r` stripping, exactly as
`BufRead::read_line` behaves at EOF). -/
def linesOfAux : List Char → List Char → List String
  | [], acc => if acc.isEmpty then [] else [String.mk acc.reverse]
  | c :: rest, acc =>
    if c = '\n' then finishLine acc :: linesOfAux rest []
    else linesOfAux rest (c :: acc)

/-- The sequence of lines `BufReader::new(child_stdout).lines()` yields on
a finite stream, modelled from the documented semantics of
`std::io::BufRead::lines`: records are split at `\n`, the terminator and a
preceding `\r` are removed, and a final fragment with no terminator is
still yielded as a line. -/
def linesOf (s : String) : List String := linesOfAux s.toList []

/-- A stream consisting of the given complete lines, each followed by its
`\n` terminator. -/
def streamOf : List String → String
  | [] => ""
  | l :: rest => l ++ "\n" ++ streamOf rest

/-- The read loop of the output pump (`for line in reader.lines()` in
`start_shell`): each `Ok` line becomes a `shell-output` event; the first
`Err` becomes a `shell-error` event and breaks the loop. -/
def pumpLoop (sid : SessionId) : List (Except String String) → List ShellEvent
  | [] => []
  | Except.ok l :: rest => ShellEvent.shellOutput sid l :: pumpLoop sid rest
  | Except.error e :: _ => [ShellEvent.shellError sid e]

/-- The full event trace of one pump thread: the read loop followed by the
single `shell-exit` event emitted after `child.wait()`. -/
def pumpEvents (sid : SessionId) (reads : List (Except String String))
    (exitStatus : Option Int) : List ShellEvent :=
  pumpLoop sid reads ++ [ShellEvent.shellExit sid exitStatus]

/-- Association-list lookup, modelling `DashMap::get` / `contains_key`
(keys in a `DashMap` are unique). -/
def lookupKey {A : Type} : List (SessionId × A) → SessionId → Option A
  | [], _ => none
  | (k, v) :: rest, sid => if k = sid then some v else lookupKey rest sid

/-- Remove every binding of a key, modelling the removal part of
`DashMap::remove`. -/
def eraseKey {A : Type} : List (SessionId × A) → SessionId → List (SessionId × A)
  | [], _ => []
  | (k, v) :: rest, sid =>
    if k = sid then eraseKey rest sid else (k, v) :: eraseKey rest sid

/-- `DashMap::insert`: bind the key to the new value, replacing any
previous binding for that key. -/
def insertKey {A : Type} (r : List (SessionId × A)) (sid : SessionId) (a : A) :
    List (SessionId × A) :=
  (sid, a) :: eraseKey r sid

/-- `DashMap::remove`: return the removed value (if any) together with the
remaining map. -/
def removeKey {A : Type} (r : List (SessionId × A)) (sid : SessionId) :
    Option A × List (SessionId × A) :=
  (lookupKey r sid, eraseKey r sid)

/-- One registered session (`TerminalSession` in the source): the child
process and its stdin stream, modelled as numeric handles. -/
structure TerminalSession where
  childPid : Nat
  stdinHandle : Nat
deriving DecidableEq, Repr

/-- The observable state of the manager process: the `SESSIONS` registry
plus ledgers recording the externally visible process/stream effects the
commands perform (processes spawned, termination requests issued, bytes
written to a session's stdin, flushes of a session's stdin). -/
structure ManagerState where
  registry : List (SessionId × TerminalSession)
  spawned : List Nat
  killed : List Nat
  writes : List (Nat × String)
  flushes : List Nat
deriving DecidableEq, Repr

/-- The manager state at startup: empty registry, no effects yet. -/
def initialState : ManagerState :=
  { registry := [], spawned := [], killed := [], writes := [], flushes := [] }

/-- How one standard stream of the child is configured, mirroring
`std::process::Stdio` as used in `start_shell`. -/
inductive StdioCfg
  | piped
  | inherit
deriving DecidableEq, Repr

/-- The handles of a freshly spawned child process.  Modelled from the
documented semantics of `std::process::Command::spawn`: `child.stdin` /
`child.stdout` / `child.stderr` are `Some` handle exactly when the
corresponding stream was configured as `Stdio::piped()`. -/
structure SpawnedChild where
  stdinHandle : Option Nat
  stdoutHandle : Option Nat
  stderrHandle : Option Nat
deriving DecidableEq, Repr

/-- Build the child-handle record `Command::spawn` returns for a given
stdio configuration and fresh process id. -/
def spawnChild (cin cout cerr : StdioCfg) (pid : Nat) : SpawnedChild :=
  { stdinHandle := if cin = StdioCfg.piped then some pid else none,
    stdoutHandle := if cout = StdioCfg.piped then some (pid + 1) else none,
    stderrHandle := if cerr = StdioCfg.piped then some (pid + 2) else none }

/-- Outcome of the operating system's attempt to create the child process:
either a fresh process id, or a spawn error (binary not found, permission
denied, resource exhaustion). -/
inductive SpawnResult
  | ok (pid : Nat)
  | spawnError (msg : String)
deriving DecidableEq, Repr

/-- How an invocation of `start_shell` ends: a normal return with the new
manager state, or a Rust panic with the panic message. -/
inductive StartOutcome
  | returned (st : ManagerState)
  | panicked (msg : String)
deriving DecidableEq, Repr

/-- Whether a `start_shell` invocation panicked. -/
def isPanicked : StartOutcome → Bool
  | StartOutcome.panicked _ => true
  | StartOutcome.returned _ => false

/-- The `start_shell` command (terminal.rs lines 72-101), sequentially:
skip if the id is already registered; otherwise spawn the shell with all
three stdio streams piped (`.expect` turns a spawn error into a panic),
`take().unwrap()` the stdin and stdout handles (panicking if either is
absent), build the session, and insert it into the registry.  The output
pump launched on the spawned thread is modelled separately by
`pumpEvents`. -/
def start_shell (spawnResult : SpawnResult) (sid : SessionId) (st : ManagerState) :
    StartOutcome :=
  if (lookupKey st.registry sid).isSome then
    StartOutcome.returned st
  else
    match spawnResult with
    | SpawnResult.spawnError _ => StartOutcome.panicked "Failed to spawn shell"
    | SpawnResult.ok pid =>
      let child := spawnChild StdioCfg.piped StdioCfg.piped StdioCfg.piped pid
      match child.stdinHandle, child.stdoutHandle with
      | some stdinH, some _stdoutH =>
        StartOutcome.returned
          { st with
            registry := insertKey st.registry sid
              { childPid := pid, stdinHandle := stdinH },
            spawned := st.spawned ++ [pid] }
      | _, _ => StartOutcome.panicked "called `Option.unwrap()` on a `None` value"

/-- The `send_input` command (terminal.rs lines 144-150): look the session
up; if absent do nothing; if present write the raw input verbatim to its
stdin (the write result is discarded, so a failed write leaves no trace
and raises nothing) and then flush.  No event is ever emitted. -/
def send_input (writeFails : Bool) (sid : SessionId) (input : String)
    (st : ManagerState) : ManagerState × List ShellEvent :=
  match lookupKey st.registry sid with
  | none => (st, [])
  | some sess =>
    let st1 := if writeFails then st
      else { st with writes := st.writes ++ [(sess.stdinHandle, input)] }
    ({ st1 with flushes := st1.flushes ++ [sess.stdinHandle] }, [])

/-- The `close_shell` command (terminal.rs lines 152-157): remove the
session from the registry; if one was removed, issue a termination
request to its child (`kill`), whose result is discarded — `killFails`
says whether the request itself failed (process already gone) and has no
influence on the outcome. -/
def close_shell (_killFails : Bool) (sid : SessionId) (st : ManagerState) :
    ManagerState :=
  match removeKey st.registry sid with
  | (some sess, registry1) =>
    { st with registry := registry1, killed := st.killed ++ [sess.childPid] }
  | (none, _) => st

/-- Whether `pat` occurs at the head of `text`. -/
def subAt : List Char → List Char → Bool
  | [], _ => true
  | _ :: _, [] => false
  | p :: ps, c :: cs => p == c && subAt ps cs

/-- Whether `pat` occurs anywhere inside `text` (Rust `str::contains`). -/
def hasSub (pat : List Char) : List Char → Bool
  | [] => subAt pat []
  | c :: cs => subAt pat (c :: cs) || hasSub pat cs

/-- Rust `str::contains` on strings. -/
def containsSubstr (hay pat : String) : Bool := hasSub pat.toList hay.toList

/-- Rust `str::to_lowercase`, character by character. -/
def lowerStr (s : String) : String := String.mk (s.toList.map Char.toLower)

/-- The shell resolver (terminal.rs lines 23-51).  The compile-time
`#[cfg(target_os = "windows")]` split becomes the `isWindows` argument;
the environment variables `SHELL` and `ComSpec` become `Option` arguments
(`Err` from `std::env::var` is `none`). -/
def detect_user_shell_and_args (isWindows : Bool) (shellVar comSpec : Option String) :
    String × List String :=
  if isWindows then
    match shellVar with
    | some shell => (shell, [])
    | none =>
      match comSpec with
      | some comspec =>
        let shellLower := lowerStr comspec
        if containsSubstr shellLower "cmd" then (comspec, ["/K"])
        else if containsSubstr shellLower "powershell" then (comspec, ["-NoExit"])
        else (comspec, [])
      | none => ("powershell.exe", ["-NoExit"])
  else
    (Option.getD shellVar "/bin/bash", [])

/-- Global state shared by two racing `start_shell` invocations for the
same id: the registry (sessions abbreviated to their child pid), the
spawn ledger and the next fresh pid. -/
structure RaceState where
  registry : List (SessionId × Nat)
  spawned : List Nat
  nextPid : Nat
deriving DecidableEq, Repr

/-- Program counter of one in-flight `start_shell` invocation, decomposed
at its shared-state accesses: the `contains_key` check (line 74), the
`spawn` (lines 84-90), and the registry `insert` (line 101). -/
inductive RacePC
  | atCheck
  | atSpawn
  | atInsert
  | finished
deriving DecidableEq, Repr

/-- One in-flight `start_shell` invocation: its program counter and the
pid of the child it has spawned, if any. -/
structure RaceThread where
  pc : RacePC
  localPid : Option Nat
deriving DecidableEq, Repr

/-- One atomic step of an in-flight `start_shell` invocation.  Each
`DashMap` operation is individually atomic, but nothing ties the
`contains_key` check to the later `insert`. -/
def raceStep (sid : SessionId) (g : RaceState) (t : RaceThread) :
    RaceState × RaceThread :=
  match t.pc with
  | RacePC.atCheck =>
    if (lookupKey g.registry sid).isSome then (g, { t with pc := RacePC.finished })
    else (g, { t with pc := RacePC.atSpawn })
  | RacePC.atSpawn =>
    ({ g with spawned := g.spawned ++ [g.nextPid], nextPid := g.nextPid + 1 },
     { pc := RacePC.atInsert, localPid := some g.nextPid })
  | RacePC.atInsert =>
    match t.localPid with
    | some p =>
      ({ g with registry := insertKey g.registry sid p },
       { t with pc := RacePC.finished })
    | none => (g, { t with pc := RacePC.finished })
  | RacePC.finished => (g, t)

/-- Run two racing `start_shell` invocations under a schedule: `true`
steps the first thread, `false` the second. -/
def runSched (sid : SessionId) :
    List Bool → RaceState × RaceThread × RaceThread → RaceState × RaceThread × RaceThread
  | [], cfg => cfg
  | b :: rest, cfg =>
    if b then
      let r := raceStep sid cfg.1 cfg.2.1
      runSched sid rest (r.1, r.2, cfg.2.2)
    else
      let r := raceStep sid cfg.1 cfg.2.2
      runSched sid rest (r.1, cfg.2.1, r.2)

/-- `String.mk` is a left inverse of `String.toList`. -/
theorem mk_toList (s : String) : String.mk s.toList = s := rfl

/-- Splitting a stream that starts with a terminator-free chunk followed
by `\n` yields that chunk (merged with the pending accumulator) as the
first line. -/
theorem linesOfAux_complete (cs rest acc : List Char) (h : '\n' ∉ cs) :
    linesOfAux (cs ++ '\n' :: rest) acc =
      finishLine (cs.reverse ++ acc) :: linesOfAux rest [] := by
  induction cs generalizing acc with
  | nil => simp [linesOfAux]
  | cons c cs ih =>
    rw [List.mem_cons] at h
    push_neg at h
    obtain ⟨hc, h'⟩ := h
    have hc' : ¬ c = '\n' := fun hh => hc hh.symm
    simp [linesOfAux, hc', ih (c :: acc) h']

/-- A nonempty terminator-free tail of the stream is yielded as one final
line, with no `\r` stripping (the EOF behaviour of `read_line`). -/
theorem linesOfAux_noTerminator (cs : List Char) (acc : List Char) (h : '\n' ∉ cs)
    (hne : acc.reverse ++ cs ≠ []) :
    linesOfAux cs acc = [String.mk (acc.reverse ++ cs)] := by
  induction cs generalizing acc with
  | nil =>
    cases acc with
    | nil => simp at hne
    | cons a as => simp [linesOfAux]
  | cons c cs ih =>
    rw [List.mem_cons] at h
    push_neg at h
    obtain ⟨hc, h'⟩ := h
    have hc' : ¬ c = '\n' := fun hh => hc hh.symm
    have hne' : (c :: acc).reverse ++ cs ≠ [] := by simp
    have hrec := ih (c :: acc) h' hne'
    simp [linesOfAux, hc', hrec]

/-- Closing out a reversed accumulator whose original order does not end
in `\r` reproduces the original characters exactly. -/
theorem finishLine_reverse (xs : List Char) (h : xs.getLast? ≠ some '\r') :
    finishLine xs.reverse = String.mk xs := by
  rw [← List.head?_reverse] at h
  cases hx : xs.reverse with
  | nil =>
    have hxs : xs = [] := by
      have := congrArg List.reverse hx
      simpa using this
    rw [hxs]
    rfl
  | cons c t =>
    have hxs : (c :: t).reverse = xs := by rw [← hx, List.reverse_reverse]
    rw [hx] at h
    have hc : ¬ c = '\r' := by
      intro hcc
      exact h (by rw [hcc]; rfl)
    simp [finishLine, hc, hxs]

/-- Data of a string append is list append of the data. -/
theorem toList_append (a b : String) : (a ++ b).toList = a.toList ++ b.toList := rfl

/-- A stream of complete `\n`-terminated lines (none containing `\n`,
none ending in `\r`) splits back into exactly those lines. -/
theorem linesOf_streamOf (L : List String)
    (h : ∀ l ∈ L, '\n' ∉ l.toList ∧ l.toList.getLast? ≠ some '\r') :
    linesOf (streamOf L) = L := by
  induction L with
  | nil => rfl
  | cons l L ih =>
    obtain ⟨h1, h2⟩ := h l (List.mem_cons_self l L)
    have hL : ∀ x ∈ L, '\n' ∉ x.toList ∧ x.toList.getLast? ≠ some '\r' :=
      fun x hx => h x (List.mem_cons_of_mem l hx)
    have hdata : (streamOf (l :: L)).toList = l.toList ++ '\n' :: (streamOf L).toList := by
      simp [streamOf, toList_append]
    unfold linesOf
    rw [hdata, linesOfAux_complete _ _ _ h1, List.append_nil, finishLine_reverse _ h2,
      mk_toList]
    exact congrArg (l :: ·) (ih hL)

/-- A stream of complete lines followed by a nonempty terminator-free
fragment splits into those lines plus the fragment as one extra line. -/
theorem linesOf_append_fragment (L : List String) (p : String)
    (hL : ∀ l ∈ L, '\n' ∉ l.toList ∧ l.toList.getLast? ≠ some '\r')
    (hp : '\n' ∉ p.toList) (hpne : p ≠ "") :
    linesOf (streamOf L ++ p) = L ++ [p] := by
  induction L with
  | nil =>
    have hpd : p.toList ≠ [] := by
      intro hh
      exact hpne (by rw [← mk_toList p, hh])
    have hdata : (streamOf [] ++ p).toList = p.toList := rfl
    unfold linesOf
    rw [hdata, linesOfAux_noTerminator p.toList [] hp (by simpa using hpd)]
    simp [mk_toList]
  | cons l L ih =>
    obtain ⟨h1, h2⟩ := hL l (List.mem_cons_self l L)
    have hL' : ∀ x ∈ L, '\n' ∉ x.toList ∧ x.toList.getLast? ≠ some '\r' :=
      fun x hx => hL x (List.mem_cons_of_mem l hx)
    have hdata : (streamOf (l :: L) ++ p).toList
        = l.toList ++ '\n' :: (streamOf L ++ p).toList := by
      simp [streamOf, toList_append]
    unfold linesOf
    rw [hdata, linesOfAux_complete _ _ _ h1, List.append_nil, finishLine_reverse _ h2,
      mk_toList]
    exact congrArg (l :: ·) (ih hL')

/-- A run of successful reads maps one-to-one to `shell-output` events. -/
theorem pumpLoop_map_ok (sid : SessionId) (L : List String) :
    pumpLoop sid (L.map Except.ok) = L.map (ShellEvent.shellOutput sid) := by
  induction L with
  | nil => rfl
  | cons x xs ih => simp [pumpLoop, ih]

/-- Successful reads followed by a failing read: outputs in order, then
one error event, and everything after the failure is ignored. -/
theorem pumpLoop_append_error (sid : SessionId) (oks : List String) (e : String)
    (rest : List (Except String String)) :
    pumpLoop sid (oks.map Except.ok ++ Except.error e :: rest) =
      oks.map (ShellEvent.shellOutput sid) ++ [ShellEvent.shellError sid e] := by
  induction oks with
  | nil => rfl
  | cons x xs ih => simp [pumpLoop, ih]

/-- Looking a key up right after inserting it finds the inserted value. -/
theorem lookupKey_insertKey_self {A : Type} (r : List (SessionId × A))
    (sid : SessionId) (a : A) : lookupKey (insertKey r sid a) sid = some a := by
  simp [insertKey, lookupKey]

/-- Looking a key up after erasing it finds nothing. -/
theorem lookupKey_eraseKey_self {A : Type} (r : List (SessionId × A))
    (sid : SessionId) : lookupKey (eraseKey r sid) sid = none := by
  induction r with
  | nil => rfl
  | cons kv rest ih =>
    obtain ⟨k, v⟩ := kv
    by_cases h : k = sid
    · simp [eraseKey, h, ih]
    · simp [eraseKey, lookupKey, h, ih]

/-- C5: if a session's standard output consists of N complete lines and
then ends cleanly, the pump emits exactly the N `shell-output` events in
original order, zero `shell-error` events, and exactly one `shell-exit`
event placed after all of them. -/
theorem pump_clean_stream_events (sid : SessionId) (L : List String)
    (exitStatus : Option Int)
    (h : ∀ l ∈ L, '\n' ∉ l.toList ∧ l.toList.getLast? ≠ some '\r') :
    pumpEvents sid ((linesOf (streamOf L)).map Except.ok) exitStatus =
      L.map (ShellEvent.shellOutput sid) ++ [ShellEvent.shellExit sid exitStatus] := by
  rw [linesOf_streamOf L h]
  unfold pumpEvents
  rw [pumpLoop_map_ok]

/-- C5 witness: a concrete two-line stream ending cleanly yields exactly
the two output events in order followed by the exit event. -/
theorem pump_clean_stream_events_witness :
    pumpEvents "s" ((linesOf (streamOf ["hi", "there"])).map Except.ok) (some 0) =
      [ShellEvent.shellOutput "s" "hi", ShellEvent.shellOutput "s" "there",
       ShellEvent.shellExit "s" (some 0)] :=
  pump_clean_stream_events "s" ["hi", "there"] (some 0) (by decide)

/-- C6: if a read on the session's standard output fails, the pump emits
exactly one `shell-error` event carrying the session id and the error
description, reads nothing further (whatever `rest` would have followed),
and still emits exactly one `shell-exit` event after it. -/
theorem pump_read_error_events (sid : SessionId) (oks : List String) (e : String)
    (rest : List (Except String String)) (exitStatus : Option Int) :
    pumpEvents sid (oks.map Except.ok ++ Except.error e :: rest) exitStatus =
      oks.map (ShellEvent.shellOutput sid) ++
        [ShellEvent.shellError sid e, ShellEvent.shellExit sid exitStatus] := by
  unfold pumpEvents
  rw [pumpLoop_append_error]
  simp

/-- C2 counterexample: on the stream `"a\nb"` — one complete record `"a"`
followed by the partial record `"b"` with no trailing terminator — the
pump emits an event for the partial record too, so the claimed trace
(only one output event, the partial record dropped) is wrong. -/
theorem pump_trailing_fragment_counterexample :
    pumpEvents "s" ((linesOf "a\nb").map Except.ok) none =
      [ShellEvent.shellOutput "s" "a", ShellEvent.shellOutput "s" "b",
       ShellEvent.shellExit "s" none] ∧
    pumpEvents "s" ((linesOf "a\nb").map Except.ok) none ≠
      [ShellEvent.shellOutput "s" "a", ShellEvent.shellExit "s" none] := by
  constructor
  · rfl
  · decide

/-- C2 amended: the pump emits one `shell-output` event per complete
record and additionally emits the final partial record (its text, without
any terminator) as one more `shell-output` event — the partial record is
emitted, not dropped. -/
theorem pump_emits_trailing_fragment (sid : SessionId) (L : List String) (p : String)
    (exitStatus : Option Int)
    (hL : ∀ l ∈ L, '\n' ∉ l.toList ∧ l.toList.getLast? ≠ some '\r')
    (hp : '\n' ∉ p.toList) (hpne : p ≠ "") :
    pumpEvents sid ((linesOf (streamOf L ++ p)).map Except.ok) exitStatus =
      (L ++ [p]).map (ShellEvent.shellOutput sid) ++
        [ShellEvent.shellExit sid exitStatus] := by
  rw [linesOf_append_fragment L p hL hp hpne]
  unfold pumpEvents
  rw [pumpLoop_map_ok]

/-- C2 amended witness: one complete record `"a"` plus the trailing
partial record `"b"` gives two output events and the exit event. -/
theorem pump_emits_trailing_fragment_witness :
    pumpEvents "s" ((linesOf (streamOf ["a"] ++ "b")).map Except.ok) none =
      [ShellEvent.shellOutput "s" "a", ShellEvent.shellOutput "s" "b",
       ShellEvent.shellExit "s" none] :=
  pump_emits_trailing_fragment "s" ["a"] "b" none (by decide) (by decide) (by decide)

/-- C1: on a fresh manager, a `start_shell` whose spawn fails (binary not
found) does not return a typed failure to the caller — it panics with the
`.expect` message, aborting the invocation instead of reporting the error. -/
theorem start_shell_spawn_failure_panics :
    start_shell (SpawnResult.spawnError "No such file or directory (os error 2)")
        "term-1" initialState =
      StartOutcome.panicked "Failed to spawn shell" := rfl

/-- C3: a `start_shell` for an id that is already registered returns the
state untouched (nothing spawned, nothing killed); and starting twice in
sequence for an unregistered id spawns exactly one child, registers it,
and the second call is a no-op, so exactly one live process results and
no second process is leaked. -/
theorem start_shell_duplicate_skip (stR st : ManagerState) (sid : SessionId)
    (spR sp2 : SpawnResult) (p1 : Nat)
    (hR : (lookupKey stR.registry sid).isSome = true)
    (h : lookupKey st.registry sid = none) :
    start_shell spR sid stR = StartOutcome.returned stR ∧
    ∃ st1,
      start_shell (SpawnResult.ok p1) sid st = StartOutcome.returned st1 ∧
      start_shell sp2 sid st1 = StartOutcome.returned st1 ∧
      st1.spawned = st.spawned ++ [p1] ∧
      st1.killed = st.killed ∧
      lookupKey st1.registry sid = some { childPid := p1, stdinHandle := p1 } := by
  constructor
  · simp [start_shell, hR]
  · refine ⟨{ st with
        registry := insertKey st.registry sid { childPid := p1, stdinHandle := p1 },
        spawned := st.spawned ++ [p1] }, ?_, ?_, rfl, rfl, ?_⟩
    · simp [start_shell, h, spawnChild]
    · simp [start_shell, lookupKey_insertKey_self]
    · exact lookupKey_insertKey_self st.registry sid _

/-- C3 witness: with `"a"` registered in one state and absent from the
fresh state, the skip and the spawn-once-then-skip behaviour hold at
concrete inputs. -/
theorem start_shell_duplicate_skip_witness :
    start_shell (SpawnResult.ok 7) "a"
        { registry := [("a", { childPid := 0, stdinHandle := 0 })], spawned := [0],
          killed := [], writes := [], flushes := [] } =
      StartOutcome.returned
        { registry := [("a", { childPid := 0, stdinHandle := 0 })], spawned := [0],
          killed := [], writes := [], flushes := [] } ∧
    ∃ st1,
      start_shell (SpawnResult.ok 1) "a" initialState = StartOutcome.returned st1 ∧
      start_shell (SpawnResult.ok 2) "a" st1 = StartOutcome.returned st1 ∧
      st1.spawned = initialState.spawned ++ [1] ∧
      st1.killed = initialState.killed ∧
      lookupKey st1.registry "a" = some { childPid := 1, stdinHandle := 1 } :=
  start_shell_duplicate_skip
    { registry := [("a", { childPid := 0, stdinHandle := 0 })], spawned := [0],
      killed := [], writes := [], flushes := [] }
    initialState "a" (SpawnResult.ok 7) (SpawnResult.ok 2) 1 (by decide) rfl

/-- C10: whenever the spawn itself succeeds, the stdin and stdout handles
taken from the child are always present (all three streams were configured
piped), so the two `unwrap()` calls in `start_shell` can never panic:
a successful spawn always lets `start_shell` return normally. -/
theorem start_shell_unwraps_safe (st : ManagerState) (sid : SessionId) (pid : Nat) :
    isPanicked (start_shell (SpawnResult.ok pid) sid st) = false := by
  cases hb : (lookupKey st.registry sid).isSome with
  | true => simp [start_shell, hb, isPanicked]
  | false => simp [start_shell, hb, spawnChild, isPanicked]

/-- C7: `send_input` never emits an event; on an unknown id it is a
complete no-op; on a registered session it appends exactly the raw input
bytes (no terminator added) to that session's stdin and then flushes, and
a failing write is swallowed — the call still returns normally, still
flushes, and surfaces nothing. -/
theorem send_input_spec (wf : Bool) (sid input : String) (st : ManagerState) :
    (send_input wf sid input st).2 = [] ∧
    (lookupKey st.registry sid = none → send_input wf sid input st = (st, [])) ∧
    (∀ sess, lookupKey st.registry sid = some sess →
      (send_input false sid input st).1 =
        { st with writes := st.writes ++ [(sess.stdinHandle, input)],
                  flushes := st.flushes ++ [sess.stdinHandle] } ∧
      (send_input true sid input st).1 =
        { st with flushes := st.flushes ++ [sess.stdinHandle] }) := by
  refine ⟨?_, ?_, ?_⟩
  · cases hlk : lookupKey st.registry sid <;> simp [send_input, hlk]
  · intro h
    simp [send_input, h]
  · intro sess h
    constructor <;> simp [send_input, h]

/-- C7 witness: on a state with session `"a"` (stdin handle 4), sending
`"echo hi\n"` appends exactly those raw bytes and flushes; a failing
write still flushes and surfaces nothing. -/
theorem send_input_spec_witness :
    (send_input false "a" "echo hi\n"
        { registry := [("a", { childPid := 3, stdinHandle := 4 })], spawned := [3],
          killed := [], writes := [], flushes := [] }).1 =
      { registry := [("a", { childPid := 3, stdinHandle := 4 })], spawned := [3],
        killed := [], writes := [(4, "echo hi\n")], flushes := [4] } ∧
    (send_input true "a" "echo hi\n"
        { registry := [("a", { childPid := 3, stdinHandle := 4 })], spawned := [3],
          killed := [], writes := [], flushes := [] }).1 =
      { registry := [("a", { childPid := 3, stdinHandle := 4 })], spawned := [3],
        killed := [], writes := [], flushes := [4] } :=
  (send_input_spec false "a" "echo hi\n"
      { registry := [("a", { childPid := 3, stdinHandle := 4 })], spawned := [3],
        killed := [], writes := [], flushes := [] }).2.2
    { childPid := 3, stdinHandle := 4 } rfl

/-- C8: after `close_shell(id)` a lookup of `id` finds nothing; if an
entry was present, a termination request was issued to its child process;
a failing termination changes nothing about the outcome (it is tolerated);
and closing an unknown id is a no-op. -/
theorem close_shell_spec (kf kf' : Bool) (sid : SessionId) (st : ManagerState) :
    lookupKey (close_shell kf sid st).registry sid = none ∧
    (∀ sess, lookupKey st.registry sid = some sess →
      (close_shell kf sid st).killed = st.killed ++ [sess.childPid]) ∧
    (lookupKey st.registry sid = none → close_shell kf sid st = st) ∧
    close_shell kf sid st = close_shell kf' sid st := by
  refine ⟨?_, ?_, ?_, rfl⟩
  · cases hlk : lookupKey st.registry sid with
    | none => simp [close_shell, removeKey, hlk]
    | some sess => simp [close_shell, removeKey, hlk, lookupKey_eraseKey_self]
  · intro sess h
    simp [close_shell, removeKey, h]
  · intro h
    simp [close_shell, removeKey, h]

/-- C8 witness: closing `"a"` on a state holding it removes it from the
registry and records the termination request for its child, regardless of
whether the kill succeeds. -/
theorem close_shell_spec_witness :
    lookupKey
        (close_shell true "a"
          { registry := [("a", { childPid := 5, stdinHandle := 6 })], spawned := [5],
            killed := [], writes := [], flushes := [] }).registry "a" = none ∧
    (close_shell true "a"
        { registry := [("a", { childPid := 5, stdinHandle := 6 })], spawned := [5],
          killed := [], writes := [], flushes := [] }).killed = [] ++ [5] ∧
    close_shell true "a"
        { registry := [("a", { childPid := 5, stdinHandle := 6 })], spawned := [5],
          killed := [], writes := [], flushes := [] } =
      close_shell false "a"
        { registry := [("a", { childPid := 5, stdinHandle := 6 })], spawned := [5],
          killed := [], writes := [], flushes := [] } := by
  have h := close_shell_spec true false "a"
    { registry := [("a", { childPid := 5, stdinHandle := 6 })], spawned := [5],
      killed := [], writes := [], flushes := [] }
  exact ⟨h.1, h.2.1 { childPid := 5, stdinHandle := 6 } rfl, h.2.2.2⟩

/-- C9: the shell resolver is total and follows exactly the documented
policy.  Off Windows it returns `SHELL` if set and `/bin/bash` otherwise,
never with arguments.  On Windows it returns `SHELL` verbatim with no
arguments when set; otherwise it inspects `ComSpec`: a classic command
shell gets the stay-open flag `/K`, a PowerShell-family shell gets
`-NoExit`, anything else gets no arguments; with neither variable set it
falls back to `powershell.exe -NoExit`. -/
theorem detect_shell_policy (shellVar comSpec : Option String) :
    (detect_user_shell_and_args false shellVar comSpec =
      (Option.getD shellVar "/bin/bash", [])) ∧
    (∀ s, shellVar = some s →
      detect_user_shell_and_args true shellVar comSpec = (s, [])) ∧
    (∀ c, shellVar = none → comSpec = some c →
      containsSubstr (lowerStr c) "cmd" = true →
      detect_user_shell_and_args true shellVar comSpec = (c, ["/K"])) ∧
    (∀ c, shellVar = none → comSpec = some c →
      containsSubstr (lowerStr c) "cmd" = false →
      containsSubstr (lowerStr c) "powershell" = true →
      detect_user_shell_and_args true shellVar comSpec = (c, ["-NoExit"])) ∧
    (∀ c, shellVar = none → comSpec = some c →
      containsSubstr (lowerStr c) "cmd" = false →
      containsSubstr (lowerStr c) "powershell" = false →
      detect_user_shell_and_args true shellVar comSpec = (c, [])) ∧
    (shellVar = none → comSpec = none →
      detect_user_shell_and_args true shellVar comSpec =
        ("powershell.exe", ["-NoExit"])) := by
  refine ⟨rfl, ?_, ?_, ?_, ?_, ?_⟩
  · intro s hs
    simp [detect_user_shell_and_args, hs]
  · intro c h1 h2 h3
    simp [detect_user_shell_and_args, h1, h2, h3]
  · intro c h1 h2 h3 h4
    simp [detect_user_shell_and_args, h1, h2, h3, h4]
  · intro c h1 h2 h3 h4
    simp [detect_user_shell_and_args, h1, h2, h3, h4]
  · intro h1 h2
    simp [detect_user_shell_and_args, h1, h2]

/-- C9 witness: with `SHELL` unset and `ComSpec = "C:\\cmd.exe"`, the
resolver picks the classic command shell with its stay-open flag. -/
theorem detect_shell_policy_witness :
    detect_user_shell_and_args true none (some "C:\\cmd.exe") =
      ("C:\\cmd.exe", ["/K"]) :=
  (detect_shell_policy none (some "C:\\cmd.exe")).2.2.1 "C:\\cmd.exe" rfl rfl
    (by decide)

/-- C4 counterexample: two concurrent `start_shell("a")` calls, interleaved
as check/check/spawn/insert/spawn/insert, both pass the `contains_key`
check, both spawn, and the second `insert` replaces the first session: two
children (pids 0 and 1) are spawned for one id, the registry keeps only
pid 1, and pid 0 is never discarded or terminated — the insert is not an
atomic insert-if-absent and the losing process is leaked. -/
theorem race_nonatomic_register_leak :
    (runSched "a" [true, false, true, true, false, false]
        ({ registry := [], spawned := [], nextPid := 0 },
         { pc := RacePC.atCheck, localPid := none },
         { pc := RacePC.atCheck, localPid := none })).1.spawned = [0, 1] ∧
    (runSched "a" [true, false, true, true, false, false]
        ({ registry := [], spawned := [], nextPid := 0 },
         { pc := RacePC.atCheck, localPid := none },
         { pc := RacePC.atCheck, localPid := none })).1.registry = [("a", 1)] ∧
    ¬ 0 ∈ ((runSched "a" [true, false, true, true, false, false]
        ({ registry := [], spawned := [], nextPid := 0 },
         { pc := RacePC.atCheck, localPid := none },
         { pc := RacePC.atCheck, localPid := none })).1.registry.map Prod.snd) := by
  decide
